import Mathlib

/-!
Shallow embedding of the simulation core of `battery_simulation_app.py`:
the cell and task registries held in the session state, the form handlers
that create and remove cells and tasks, and the perturbation engine
`simulate_real_time_data`.

Python floats are modelled as rationals.  Python `round(x, n)` is modelled
as decimal rounding with the half-to-even tie rule.  Random draws
(`random.uniform`) are passed to the embedded functions as explicit
arguments, with their ranges stated as hypotheses where a claim needs
them.  The registries are Python dicts with insertion order, modelled as
association lists; insertion appends at the end and deletion filters the
key out, which preserves the order of the remaining entries exactly as
`del d[k]` does.
-/

namespace BatterySim

/-- Rounding of a rational to an integer, ties going to the even
neighbour: the tie rule of Python `round`. -/
def roundHalfEven (x : ℚ) : ℤ :=
  if x - ⌊x⌋ < 1/2 then ⌊x⌋
  else if 1/2 < x - ⌊x⌋ then ⌊x⌋ + 1
  else if ⌊x⌋ % 2 = 0 then ⌊x⌋ else ⌊x⌋ + 1

/-- Python `round(x, n)` on rationals: round `x * 10 ^ n` half-to-even
and scale back. -/
def pyRound (x : ℚ) (n : ℕ) : ℚ := (roundHalfEven (x * 10 ^ n) : ℤ) / 10 ^ n

/-- One cell record, the dict built by `generate_cell_data`.  The creation
timestamp `datetime.now()` is abstracted to a natural number. -/
structure Cell where
  cell_id : String
  cell_type : String
  voltage : ℚ
  current : ℚ
  temperature : ℚ
  capacity : ℚ
  min_voltage : ℚ
  max_voltage : ℚ
  status : String
  created_at : ℕ
  deriving DecidableEq

/-- `generate_cell_data(cell_type, cell_id)` (lines 97-117).  `tempDraw`
is the `random.uniform(25, 40)` draw and `now` the creation time.  Any
`cell_type` other than `"LFP"` takes the NMC branch of each conditional,
exactly as the Python `3.2 if cell_type == "LFP" else 3.6` does. -/
def generate_cell_data (cell_type cell_id : String) (tempDraw : ℚ) (now : ℕ) : Cell :=
  let voltage : ℚ := if cell_type = "LFP" then 3.2 else 3.6
  let min_voltage : ℚ := if cell_type = "LFP" then 2.8 else 3.2
  let max_voltage : ℚ := if cell_type = "LFP" then 3.6 else 4.0
  let current : ℚ := 0
  let temp : ℚ := pyRound tempDraw 1
  let capacity : ℚ := pyRound (voltage * current) 2
  { cell_id := cell_id
    cell_type := cell_type
    voltage := voltage
    current := current
    temperature := temp
    capacity := capacity
    min_voltage := min_voltage
    max_voltage := max_voltage
    status := "Active"
    created_at := now }

/-- One task record, the dict built by the `add_task_form` handler
(lines 307-328).  Fields that the handler only adds for some kinds are
`Option`s, `none` meaning the key is absent from the dict. -/
structure Task where
  task_id : String
  task_type : String
  time_seconds : ℕ
  status : String
  created_at : ℕ
  cc_cp : Option String := none
  cv_voltage : Option ℚ := none
  voltage : Option ℚ := none
  current : Option ℚ := none
  capacity : Option ℚ := none
  deriving DecidableEq

/-- The inputs the task form provides for each selected task type
(lines 280-299): the widget set shown, and hence the values reaching the
submit handler, depends on the type.  Number inputs always carry a value;
the CC/CP text input may be the empty string. -/
inductive TaskForm where
  | cc_cv (cc_input : String) (cv_voltage current capacity : ℚ) (time_seconds : ℕ)
  | idle (time_seconds : ℕ)
  | cc_cd (cc_input : String) (voltage capacity : ℚ) (time_seconds : ℕ)
  deriving DecidableEq

/-- The `task_type` string selected in the form. -/
def TaskForm.task_type : TaskForm → String
  | .cc_cv _ _ _ _ _ => "CC_CV"
  | .idle _ => "IDLE"
  | .cc_cd _ _ _ _ => "CC_CD"

/-- The `time_seconds` number input, present for every task type. -/
def TaskForm.time_seconds : TaskForm → ℕ
  | .cc_cv _ _ _ _ t => t
  | .idle t => t
  | .cc_cd _ _ _ t => t

/-- The `task_data` dict built by the submit handler (lines 307-328):
a base record, then kind-specific `update` calls for `CC_CV` and
`CC_CD`; `IDLE` adds nothing. -/
def buildTaskData (form : TaskForm) (task_id : String) (now : ℕ) : Task :=
  let base : Task :=
    { task_id := task_id
      task_type := form.task_type
      time_seconds := form.time_seconds
      status := "Pending"
      created_at := now }
  match form with
  | .cc_cv cc cv cur cap _ =>
      { base with cc_cp := some cc, cv_voltage := some cv,
                  current := some cur, capacity := some cap }
  | .idle _ => base
  | .cc_cd cc v cap _ =>
      { base with cc_cp := some cc, voltage := some v, capacity := some cap }

/-- `st.session_state.cells_data`: a dict keyed by cell id, in insertion
order. -/
abbrev CellRegistry := List (String × Cell)

/-- `st.session_state.tasks_data`: a dict keyed by task id, in insertion
order. -/
abbrev TaskRegistry := List (String × Task)

/-- The only error the create handlers can report: the derived key
already exists in the registry (lines 223 and 334). -/
inductive AddError where
  | duplicateKey
  deriving DecidableEq

/-- Python `str.lower()`, mapping each character to its lowercase form;
for the ASCII chemistry tags used here this is exactly `.lower()`. -/
def strLower (s : String) : String := ⟨s.data.map Char.toLower⟩

/-- The cell id the `add_cell_form` handler derives (line 215):
the entered name, or `cell_{len + 1}_{cell_type.lower()}` when the name
field is empty (Python truthiness of the empty string). -/
def derivedCellId (reg : CellRegistry) (cell_type cell_name : String) : String :=
  if cell_name = "" then
    "cell_" ++ toString (reg.length + 1) ++ "_" ++ strLower cell_type
  else cell_name

/-- The `add_cell_form` submit handler (lines 214-223): derive the id,
reject a duplicate leaving the registry untouched, otherwise insert the
generated cell record at the end. -/
def addCell (reg : CellRegistry) (cell_type cell_name : String) (tempDraw : ℚ)
    (now : ℕ) : Option AddError × CellRegistry :=
  let cell_id := derivedCellId reg cell_type cell_name
  if reg.any (fun p => p.1 == cell_id) then (some .duplicateKey, reg)
  else (none, reg ++ [(cell_id, generate_cell_data cell_type cell_id tempDraw now)])

/-- The task id the `add_task_form` handler derives (line 304): the
entered name, or `task_{len + 1}` when the name field is empty. -/
def derivedTaskId (reg : TaskRegistry) (task_name : String) : String :=
  if task_name = "" then "task_" ++ toString (reg.length + 1) else task_name

/-- The `add_task_form` submit handler (lines 303-334): derive the id,
reject a duplicate leaving the registry untouched, otherwise build the
kind-specific record and insert it at the end.  The handler performs no
validation of the form values. -/
def addTask (reg : TaskRegistry) (form : TaskForm) (task_name : String)
    (now : ℕ) : Option AddError × TaskRegistry :=
  let task_id := derivedTaskId reg task_name
  if reg.any (fun p => p.1 == task_id) then (some .duplicateKey, reg)
  else (none, reg ++ [(task_id, buildTaskData form task_id now)])

/-- The remove-cell button handler (lines 246-249): `del cells_data[id]`,
keeping every other entry in order. -/
def removeCell (reg : CellRegistry) (cell_id : String) : CellRegistry :=
  reg.filter (fun p => p.1 != cell_id)

/-- The remove-task button handler (lines 359-362). -/
def removeTask (reg : TaskRegistry) (task_id : String) : TaskRegistry :=
  reg.filter (fun p => p.1 != task_id)

/-- The per-cell body of `simulate_real_time_data` (lines 122-137):
clamp the perturbed voltage to `[min_voltage, max_voltage]`, clamp the
perturbed temperature to `[20, 60]`, then store the voltage rounded to 2
decimals, the temperature rounded to 1 decimal, and the capacity as the
pre-rounding new voltage times the (old) current, rounded to 2
decimals. -/
def tickCell (c : Cell) (voltage_change temp_change : ℚ) : Cell :=
  let new_voltage := max c.min_voltage (min c.max_voltage (c.voltage + voltage_change))
  let new_temp := max 20 (min 60 (c.temperature + temp_change))
  { c with
    voltage := pyRound new_voltage 2
    temperature := pyRound new_temp 1
    capacity := pyRound (new_voltage * c.current) 2 }

/-- The whole mutable session state: the two registries and the
simulation flag. -/
structure SessionState where
  cells_data : CellRegistry
  tasks_data : TaskRegistry
  simulation_running : Bool
  deriving DecidableEq

/-- `simulate_real_time_data()` (lines 119-137): one tick over every cell
in the registry.  `draws` gives each cell id its pair of random draws,
`(random.uniform(-0.1, 0.1), random.uniform(-2, 2))`. -/
def simulate_real_time_data (s : SessionState) (draws : String → ℚ × ℚ) : SessionState :=
  { s with
    cells_data := s.cells_data.map fun p => (p.1, tickCell p.2 (draws p.1).1 (draws p.1).2) }

/-- The session states the app can reach from the initial empty state
(lines 79-86) through its handlers: adding and removing cells and tasks,
flipping the simulation flag (lines 394-399), and ticking.  The range
hypotheses are the ranges of the `random.uniform` calls feeding each
step. -/
inductive Reachable : SessionState → Prop where
  | init : Reachable ⟨[], [], false⟩
  | cellAdded (s : SessionState) (ct name : String) (t0 : ℚ) (now : ℕ)
      (hr : Reachable s) (h25 : 25 ≤ t0) (h40 : t0 ≤ 40) :
      Reachable { s with cells_data := (addCell s.cells_data ct name t0 now).2 }
  | taskAdded (s : SessionState) (form : TaskForm) (name : String) (now : ℕ)
      (hr : Reachable s) :
      Reachable { s with tasks_data := (addTask s.tasks_data form name now).2 }
  | cellRemoved (s : SessionState) (id : String) (hr : Reachable s) :
      Reachable { s with cells_data := removeCell s.cells_data id }
  | taskRemoved (s : SessionState) (id : String) (hr : Reachable s) :
      Reachable { s with tasks_data := removeTask s.tasks_data id }
  | flagSet (s : SessionState) (b : Bool) (hr : Reachable s) :
      Reachable { s with simulation_running := b }
  | ticked (s : SessionState) (draws : String → ℚ × ℚ) (hr : Reachable s)
      (hv : ∀ id, -(1/10) ≤ (draws id).1 ∧ (draws id).1 ≤ 1/10)
      (ht : ∀ id, -2 ≤ (draws id).2 ∧ (draws id).2 ≤ 2) :
      Reachable (simulate_real_time_data s draws)

/-- The invariant every cell record in the registry keeps: its voltage
bounds are the chemistry-table ones, voltage and temperature are in
range, current is 0, and capacity is the rounded voltage-current
product. -/
def CellOK (c : Cell) : Prop :=
  ((c.min_voltage = 2.8 ∧ c.max_voltage = 3.6) ∨
    (c.min_voltage = 3.2 ∧ c.max_voltage = 4.0))
  ∧ c.min_voltage ≤ c.voltage ∧ c.voltage ≤ c.max_voltage
  ∧ 20 ≤ c.temperature ∧ c.temperature ≤ 60
  ∧ c.current = 0
  ∧ c.capacity = pyRound (c.voltage * c.current) 2

theorem floor_le_roundHalfEven (x : ℚ) : ⌊x⌋ ≤ roundHalfEven x := by
  unfold roundHalfEven
  split_ifs <;> omega

theorem le_roundHalfEven {A : ℤ} {x : ℚ} (h : (A : ℚ) ≤ x) :
    A ≤ roundHalfEven x :=
  le_trans (Int.le_floor.mpr h) (floor_le_roundHalfEven x)

theorem roundHalfEven_le {B : ℤ} {x : ℚ} (h : x ≤ (B : ℚ)) :
    roundHalfEven x ≤ B := by
  have hfB : ⌊x⌋ ≤ B := by
    have h1 := Int.floor_le_floor h
    simpa using h1
  unfold roundHalfEven
  split_ifs with h1 h2 h3
  · exact hfB
  · have hx : (⌊x⌋ : ℚ) < x := by
      have := not_lt.mp h1
      linarith
    have : ⌊x⌋ < B := by exact_mod_cast lt_of_lt_of_le hx h
    omega
  · exact hfB
  · have hx : (⌊x⌋ : ℚ) < x := by
      have := not_lt.mp h1
      linarith
    have : ⌊x⌋ < B := by exact_mod_cast lt_of_lt_of_le hx h
    omega

theorem le_pyRound {A : ℤ} {n : ℕ} {x : ℚ} (h : (A : ℚ) / 10 ^ n ≤ x) :
    (A : ℚ) / 10 ^ n ≤ pyRound x n := by
  have hp : (0 : ℚ) < 10 ^ n := by positivity
  have h1 : (A : ℚ) ≤ x * 10 ^ n := (div_le_iff₀ hp).mp h
  have h2 : A ≤ roundHalfEven (x * 10 ^ n) := le_roundHalfEven h1
  unfold pyRound
  gcongr

theorem pyRound_le {B : ℤ} {n : ℕ} {x : ℚ} (h : x ≤ (B : ℚ) / 10 ^ n) :
    pyRound x n ≤ (B : ℚ) / 10 ^ n := by
  have hp : (0 : ℚ) < 10 ^ n := by positivity
  have h1 : x * 10 ^ n ≤ (B : ℚ) := (le_div_iff₀ hp).mp h
  have h2 : roundHalfEven (x * 10 ^ n) ≤ B := roundHalfEven_le h1
  unfold pyRound
  gcongr

theorem pyRound_zero (n : ℕ) : pyRound 0 n = 0 := by
  unfold pyRound roundHalfEven
  norm_num

/-- Rounding a value clamped between two bounds that are exact at `n`
decimals stays between the bounds. -/
theorem clamp_pyRound_mem {A B : ℤ} {n : ℕ} {lo hi : ℚ} (x : ℚ)
    (hlo : lo = (A : ℚ) / 10 ^ n) (hhi : hi = (B : ℚ) / 10 ^ n)
    (hAB : lo ≤ hi) :
    lo ≤ pyRound (max lo (min hi x)) n ∧ pyRound (max lo (min hi x)) n ≤ hi := by
  constructor
  · rw [hlo]
    exact le_pyRound (by rw [← hlo]; exact le_max_left _ _)
  · rw [hhi]
    exact pyRound_le (by rw [← hhi]; exact max_le hAB (min_le_left _ _))

theorem generate_cell_data_ok (ct id : String) (t0 : ℚ) (now : ℕ)
    (h25 : 25 ≤ t0) (h40 : t0 ≤ 40) : CellOK (generate_cell_data ct id t0 now) := by
  have h1 : ((250 : ℤ) : ℚ) / 10 ^ 1 ≤ t0 := by norm_num; linarith
  have h2 : t0 ≤ ((400 : ℤ) : ℚ) / 10 ^ 1 := by norm_num; linarith
  have hlo := le_pyRound h1
  have hhi := pyRound_le h2
  norm_num at hlo hhi
  simp only [CellOK, generate_cell_data]
  by_cases hct : ct = "LFP" <;>
    simp only [hct, if_true, if_false, reduceCtorEq, String.reduceEq, reduceIte] <;>
    refine ⟨by norm_num, by norm_num, by norm_num, by linarith, by linarith, by trivial,
      by trivial⟩

theorem tickCell_ok {c : Cell} (hc : CellOK c) (dv dt : ℚ) :
    CellOK (tickCell c dv dt) := by
  simp only [CellOK] at hc
  obtain ⟨hb, -, -, -, -, hcur, -⟩ := hc
  have hvolt :
      c.min_voltage ≤ pyRound (max c.min_voltage (min c.max_voltage (c.voltage + dv))) 2 ∧
      pyRound (max c.min_voltage (min c.max_voltage (c.voltage + dv))) 2 ≤ c.max_voltage := by
    rcases hb with ⟨hb1, hb2⟩ | ⟨hb1, hb2⟩
    · exact clamp_pyRound_mem (A := 280) (B := 360) _ (by rw [hb1]; norm_num)
        (by rw [hb2]; norm_num) (by rw [hb1, hb2]; norm_num)
    · exact clamp_pyRound_mem (A := 320) (B := 400) _ (by rw [hb1]; norm_num)
        (by rw [hb2]; norm_num) (by rw [hb1, hb2]; norm_num)
  have htemp :
      (20 : ℚ) ≤ pyRound (max 20 (min 60 (c.temperature + dt))) 1 ∧
      pyRound (max 20 (min 60 (c.temperature + dt))) 1 ≤ 60 :=
    clamp_pyRound_mem (A := 200) (B := 600) _ (by norm_num) (by norm_num) (by norm_num)
  simp only [CellOK]
  refine ⟨?_, ?_, ?_, ?_, ?_, ?_, ?_⟩
  · simpa [tickCell] using hb
  · simpa [tickCell] using hvolt.1
  · simpa [tickCell] using hvolt.2
  · simpa [tickCell] using htemp.1
  · simpa [tickCell] using htemp.2
  · simpa [tickCell] using hcur
  · simp [tickCell, hcur, pyRound_zero]

/-- Every cell record in the registry of a reachable session state keeps
the cell invariant. -/
theorem reachable_cellOK {s : SessionState} (h : Reachable s) :
    ∀ p ∈ s.cells_data, CellOK p.2 := by
  induction h with
  | init => intro p hp; simp at hp
  | cellAdded s ct name t0 now hr h25 h40 ih =>
      intro p hp
      dsimp only at hp
      rw [addCell] at hp
      by_cases hdup :
          (s.cells_data.any fun q => q.1 == derivedCellId s.cells_data ct name) = true
      · rw [if_pos hdup] at hp
        exact ih p hp
      · rw [if_neg hdup] at hp
        dsimp only at hp
        rcases List.mem_append.mp hp with hmem | hmem
        · exact ih p hmem
        · rcases List.mem_singleton.mp hmem with rfl
          exact generate_cell_data_ok _ _ _ _ h25 h40
  | taskAdded s form name now hr ih => exact ih
  | cellRemoved s id hr ih =>
      intro p hp
      dsimp only at hp
      exact ih p (List.mem_of_mem_filter hp)
  | taskRemoved s id hr ih => exact ih
  | flagSet s b hr ih => exact ih
  | ticked s draws hr hv ht ih =>
      intro p hp
      simp only [simulate_real_time_data, List.mem_map] at hp
      obtain ⟨q, hq, rfl⟩ := hp
      exact tickCell_ok (ih q hq) _ _

/-- Claim C1: in every reachable session state — hence after every
sequence of `tick()` calls, each tick adding a delta from `[-0.1, 0.1]`,
clamping to `[min_voltage, max_voltage]` and rounding to 2 decimals —
every registry cell's stored voltage lies within
`[min_voltage, max_voltage]`. -/
theorem voltage_within_bounds {s : SessionState} (h : Reachable s) :
    ∀ p ∈ s.cells_data,
      p.2.min_voltage ≤ p.2.voltage ∧ p.2.voltage ≤ p.2.max_voltage := by
  intro p hp
  have hc := reachable_cellOK h p hp
  simp only [CellOK] at hc
  exact ⟨hc.2.1, hc.2.2.1⟩

/-- Claim C1 witness: the bound holds for the one cell of the concrete
reachable state with a single default-named LFP cell. -/
theorem voltage_within_bounds_witness :
    (generate_cell_data "LFP" "cell_1_lfp" 30 0).min_voltage
        ≤ (generate_cell_data "LFP" "cell_1_lfp" 30 0).voltage ∧
    (generate_cell_data "LFP" "cell_1_lfp" 30 0).voltage
        ≤ (generate_cell_data "LFP" "cell_1_lfp" 30 0).max_voltage :=
  voltage_within_bounds
    (Reachable.cellAdded ⟨[], [], false⟩ "LFP" "" 30 0 Reachable.init
      (by norm_num) (by norm_num))
    ("cell_1_lfp", generate_cell_data "LFP" "cell_1_lfp" 30 0)
    (List.Mem.head _)

/-- Claim C2: in every reachable session state the stored temperature of
every registry cell lies within `[20, 60]`: the initial temperature is
the rounded `uniform(25, 40)` draw, and each tick clamps to `[20, 60]`
and rounds to 1 decimal. -/
theorem temperature_within_bounds {s : SessionState} (h : Reachable s) :
    ∀ p ∈ s.cells_data, 20 ≤ p.2.temperature ∧ p.2.temperature ≤ 60 := by
  intro p hp
  have hc := reachable_cellOK h p hp
  simp only [CellOK] at hc
  exact ⟨hc.2.2.2.1, hc.2.2.2.2.1⟩

/-- Claim C2 witness: the bound holds for the one cell of the concrete
reachable state with a single default-named LFP cell. -/
theorem temperature_within_bounds_witness :
    20 ≤ (generate_cell_data "LFP" "cell_1_lfp" 30 0).temperature ∧
    (generate_cell_data "LFP" "cell_1_lfp" 30 0).temperature ≤ 60 :=
  temperature_within_bounds
    (Reachable.cellAdded ⟨[], [], false⟩ "LFP" "" 30 0 Reachable.init
      (by norm_num) (by norm_num))
    ("cell_1_lfp", generate_cell_data "LFP" "cell_1_lfp" 30 0)
    (List.Mem.head _)

/-- Claim C3: after any `tick()` on a reachable state, every cell's
stored capacity equals `round(voltage * current, 2)` computed from the
stored (post-rounding) voltage and current — even though the tick itself
computes the capacity from the pre-rounding new voltage.  (Both sides are
0 because the current of every registry cell is 0.) -/
theorem capacity_consistent {s : SessionState} (h : Reachable s)
    (draws : String → ℚ × ℚ) :
    ∀ p ∈ (simulate_real_time_data s draws).cells_data,
      p.2.capacity = pyRound (p.2.voltage * p.2.current) 2 := by
  intro p hp
  simp only [simulate_real_time_data, List.mem_map] at hp
  obtain ⟨q, hq, rfl⟩ := hp
  have hc := tickCell_ok (reachable_cellOK h q hq) (draws q.1).1 (draws q.1).2
  simp only [CellOK] at hc
  exact hc.2.2.2.2.2.2

/-- Claim C3 witness: the consistency holds for the one cell after a
tick with zero draws on the concrete reachable state with a single
default-named LFP cell. -/
theorem capacity_consistent_witness :
    (tickCell (generate_cell_data "LFP" "cell_1_lfp" 30 0) 0 0).capacity
      = pyRound ((tickCell (generate_cell_data "LFP" "cell_1_lfp" 30 0) 0 0).voltage
          * (tickCell (generate_cell_data "LFP" "cell_1_lfp" 30 0) 0 0).current) 2 :=
  capacity_consistent
    (Reachable.cellAdded ⟨[], [], false⟩ "LFP" "" 30 0 Reachable.init
      (by norm_num) (by norm_num))
    (fun _ => (0, 0))
    ("cell_1_lfp", tickCell (generate_cell_data "LFP" "cell_1_lfp" 30 0) 0 0)
    (List.Mem.head _)

/-- Claim C4: creating a cell or a task whose derived id (explicit or
defaulted) already exists in the respective registry reports the
duplicate-key error and returns the registry unchanged, entry for
entry. -/
theorem duplicate_create_rejected
    (regC : CellRegistry) (ct name : String) (t0 : ℚ) (nowC : ℕ)
    (regT : TaskRegistry) (form : TaskForm) (tname : String) (nowT : ℕ)
    (hC : (regC.any fun p => p.1 == derivedCellId regC ct name) = true)
    (hT : (regT.any fun p => p.1 == derivedTaskId regT tname) = true) :
    addCell regC ct name t0 nowC = (some AddError.duplicateKey, regC) ∧
    addTask regT form tname nowT = (some AddError.duplicateKey, regT) := by
  constructor
  · simp [addCell, hC]
  · simp [addTask, hT]

/-- Claim C4 witness: re-creating the explicitly named cell `x` and the
explicitly named task `t` both fail and leave the registries as they
were. -/
theorem duplicate_create_rejected_witness :
    addCell [("x", generate_cell_data "LFP" "x" 30 0)] "LFP" "x" 31 1
      = (some AddError.duplicateKey, [("x", generate_cell_data "LFP" "x" 30 0)]) ∧
    addTask [("t", buildTaskData (TaskForm.idle 5) "t" 0)] (TaskForm.idle 9) "t" 1
      = (some AddError.duplicateKey, [("t", buildTaskData (TaskForm.idle 5) "t" 0)]) :=
  duplicate_create_rejected _ "LFP" "x" 31 1 _ (TaskForm.idle 9) "t" 1
    (by decide) (by decide)

/-- Claim C5 counterexample: a `CC_CV` task submitted with the required
CC/CP setpoint left empty is not rejected — no error of any kind is
reported and the task registry grows from empty to one entry, so no
validation aborts the creation. -/
theorem task_empty_setpoint_accepted :
    (addTask [] (TaskForm.cc_cv "" 4.0 1.0 100.0 3600) "" 0).1 = none ∧
    (addTask [] (TaskForm.cc_cv "" 4.0 1.0 100.0 3600) "" 0).2.length = 1 :=
  ⟨rfl, rfl⟩

/-- Claim C5 amended: the task handler performs no validation of the
kind-specific parameters; whenever the derived key is fresh, creation
succeeds with whatever the form carries (the form's number widgets always
supply the numeric fields, and an empty setpoint string is stored as
given), and the only possible failure is a duplicate key. -/
theorem addTask_no_validation (reg : TaskRegistry) (form : TaskForm)
    (tname : String) (now : ℕ)
    (h : (reg.any fun p => p.1 == derivedTaskId reg tname) = false) :
    addTask reg form tname now
      = (none, reg ++ [(derivedTaskId reg tname,
          buildTaskData form (derivedTaskId reg tname) now)]) := by
  simp [addTask, h]

/-- Claim C5 witness (amended): a CC_CV task with empty setpoint is
created under the default key on the empty registry. -/
theorem addTask_no_validation_witness :
    addTask [] (TaskForm.cc_cv "" 4.0 1.0 100.0 3600) "" 0
      = (none, [] ++ [(derivedTaskId [] "",
          buildTaskData (TaskForm.cc_cv "" 4.0 1.0 100.0 3600) (derivedTaskId [] "") 0)]) :=
  addTask_no_validation [] (TaskForm.cc_cv "" 4.0 1.0 100.0 3600) "" 0 (by decide)

/-- Claim C6 counterexample: with an empty registry and chemistry `LFP`,
the generated default cell key is `cell_1_lfp` — the chemistry tag is
lowercased — and not `cell_1_LFP` as the claim's enumerand spelling
says. -/
theorem default_cell_key_lowercased :
    derivedCellId [] "LFP" "" = "cell_1_lfp" ∧
    derivedCellId [] "LFP" "" ≠ "cell_1_LFP" :=
  ⟨rfl, by decide⟩

/-- Claim C6 amended: the default cell key is
`cell_{n+1}_{chemistry.lower()}` — the chemistry tag lowercased — and the
default task key is `task_{n+1}`, with n the current size of the
respective registry. -/
theorem default_keys (regC : CellRegistry) (ct : String) (regT : TaskRegistry) :
    derivedCellId regC ct "" = "cell_" ++ toString (regC.length + 1) ++ "_" ++ strLower ct
    ∧ derivedTaskId regT "" = "task_" ++ toString (regT.length + 1) :=
  ⟨rfl, rfl⟩

/-- Claim C7: chemistry determines the created cell's electrical fields —
`LFP` gives voltage 3.2 and bounds `[2.8, 3.6]`, `NMC` gives voltage 3.6
and bounds `[3.2, 4.0]` — and for either chemistry the current is 0, the
capacity is `round(voltage * current, 2) = 0`, the status is `Active`,
and the stored temperature comes from the `uniform(25, 40)` draw and
stays in `[25, 40]`. -/
theorem create_cell_fields (id : String) (t0 : ℚ) (now : ℕ)
    (h25 : 25 ≤ t0) (h40 : t0 ≤ 40) :
    ((generate_cell_data "LFP" id t0 now).voltage = 3.2 ∧
     (generate_cell_data "LFP" id t0 now).min_voltage = 2.8 ∧
     (generate_cell_data "LFP" id t0 now).max_voltage = 3.6) ∧
    ((generate_cell_data "NMC" id t0 now).voltage = 3.6 ∧
     (generate_cell_data "NMC" id t0 now).min_voltage = 3.2 ∧
     (generate_cell_data "NMC" id t0 now).max_voltage = 4.0) ∧
    (∀ ct : String,
      (generate_cell_data ct id t0 now).current = 0 ∧
      (generate_cell_data ct id t0 now).capacity
        = pyRound ((generate_cell_data ct id t0 now).voltage
            * (generate_cell_data ct id t0 now).current) 2 ∧
      (generate_cell_data ct id t0 now).capacity = 0 ∧
      (generate_cell_data ct id t0 now).status = "Active" ∧
      25 ≤ (generate_cell_data ct id t0 now).temperature ∧
      (generate_cell_data ct id t0 now).temperature ≤ 40) := by
  have h1 : ((250 : ℤ) : ℚ) / 10 ^ 1 ≤ t0 := by norm_num; linarith
  have h2 : t0 ≤ ((400 : ℤ) : ℚ) / 10 ^ 1 := by norm_num; linarith
  have hlo := le_pyRound h1
  have hhi := pyRound_le h2
  norm_num at hlo hhi
  refine ⟨⟨rfl, rfl, rfl⟩, ⟨rfl, rfl, rfl⟩, ?_⟩
  intro ct
  refine ⟨rfl, rfl, ?_, rfl, ?_, ?_⟩
  · simp [generate_cell_data, pyRound_zero]
  · simpa [generate_cell_data] using hlo
  · simpa [generate_cell_data] using hhi

/-- Claim C7 witness: the field table holds at the concrete temperature
draw 30. -/
theorem create_cell_fields_witness :
    ((generate_cell_data "LFP" "a" 30 0).voltage = 3.2 ∧
     (generate_cell_data "LFP" "a" 30 0).min_voltage = 2.8 ∧
     (generate_cell_data "LFP" "a" 30 0).max_voltage = 3.6) ∧
    ((generate_cell_data "NMC" "a" 30 0).voltage = 3.6 ∧
     (generate_cell_data "NMC" "a" 30 0).min_voltage = 3.2 ∧
     (generate_cell_data "NMC" "a" 30 0).max_voltage = 4.0) ∧
    (∀ ct : String,
      (generate_cell_data ct "a" 30 0).current = 0 ∧
      (generate_cell_data ct "a" 30 0).capacity
        = pyRound ((generate_cell_data ct "a" 30 0).voltage
            * (generate_cell_data ct "a" 30 0).current) 2 ∧
      (generate_cell_data ct "a" 30 0).capacity = 0 ∧
      (generate_cell_data ct "a" 30 0).status = "Active" ∧
      25 ≤ (generate_cell_data ct "a" 30 0).temperature ∧
      (generate_cell_data ct "a" 30 0).temperature ≤ 40) :=
  create_cell_fields "a" 30 0 (by norm_num) (by norm_num)

/-- Claim C8: the stored task record's optional-field set is exactly
determined by its kind: `IDLE` populates none of the kind-specific
fields, `CC_CD` populates the setpoint, voltage and capacity but neither
`cv_voltage` nor `current`, and `CC_CV` populates the setpoint,
`cv_voltage`, `current` and `capacity` but not `voltage`. -/
theorem task_field_sets (id : String) (now : ℕ) (tIdle tCv tCd : ℕ)
    (cc ccd : String) (cv cur cap v capd : ℚ) :
    (let t := buildTaskData (TaskForm.idle tIdle) id now
     t.task_id = id ∧ t.task_type = "IDLE" ∧ t.time_seconds = tIdle ∧
     t.status = "Pending" ∧ t.created_at = now ∧
     t.cc_cp = none ∧ t.cv_voltage = none ∧ t.voltage = none ∧
     t.current = none ∧ t.capacity = none) ∧
    (let t := buildTaskData (TaskForm.cc_cd ccd v capd tCd) id now
     t.cv_voltage = none ∧ t.current = none ∧
     t.cc_cp = some ccd ∧ t.voltage = some v ∧ t.capacity = some capd) ∧
    (let t := buildTaskData (TaskForm.cc_cv cc cv cur cap tCv) id now
     t.cc_cp = some cc ∧ t.cv_voltage = some cv ∧ t.current = some cur ∧
     t.capacity = some cap ∧ t.voltage = none) :=
  ⟨⟨rfl, rfl, rfl, rfl, rfl, rfl, rfl, rfl, rfl, rfl⟩,
   ⟨rfl, rfl, rfl, rfl, rfl⟩, ⟨rfl, rfl, rfl, rfl, rfl⟩⟩

/-- Claim C9: a tick mutates only the voltage, temperature and capacity
of the cells: the key sequence is unchanged, every cell keeps its id,
type, current, voltage bounds, status and creation time, and the task
registry and the running flag are untouched. -/
theorem tick_frame (s : SessionState) (draws : String → ℚ × ℚ) :
    (simulate_real_time_data s draws).cells_data.map Prod.fst
        = s.cells_data.map Prod.fst
    ∧ List.Forall₂ (fun p q : String × Cell =>
        q.1 = p.1 ∧ q.2.cell_id = p.2.cell_id ∧ q.2.cell_type = p.2.cell_type ∧
        q.2.current = p.2.current ∧ q.2.min_voltage = p.2.min_voltage ∧
        q.2.max_voltage = p.2.max_voltage ∧ q.2.status = p.2.status ∧
        q.2.created_at = p.2.created_at)
        s.cells_data (simulate_real_time_data s draws).cells_data
    ∧ (simulate_real_time_data s draws).tasks_data = s.tasks_data
    ∧ (simulate_real_time_data s draws).simulation_running = s.simulation_running := by
  refine ⟨?_, ?_, rfl, rfl⟩
  · show (s.cells_data.map fun p =>
        (p.1, tickCell p.2 (draws p.1).1 (draws p.1).2)).map Prod.fst
      = s.cells_data.map Prod.fst
    induction s.cells_data with
    | nil => rfl
    | cons a l ih => simp [ih]
  · show List.Forall₂ _ s.cells_data
      (s.cells_data.map fun p => (p.1, tickCell p.2 (draws p.1).1 (draws p.1).2))
    induction s.cells_data with
    | nil => exact List.Forall₂.nil
    | cons a l ih =>
        exact List.Forall₂.cons ⟨rfl, rfl, rfl, rfl, rfl, rfl, rfl, rfl⟩ ih

/-- Claim C10: auto-generated default keys are not fresh.  Create two
default-named LFP cells (keys `cell_1_lfp`, `cell_2_lfp`), remove the
first — a cell that is not the most recently created remains — and the
next default-named creation derives `cell_2_lfp` again, so it fails with
the duplicate-key error and leaves the registry unchanged instead of
creating a cell. -/
theorem default_key_collision :
    (let s1 := (addCell [] "LFP" "" 30 0).2
     let s2 := (addCell s1 "LFP" "" 30 1).2
     let s3 := removeCell s2 "cell_1_lfp"
     s3.map Prod.fst = ["cell_2_lfp"] ∧
     addCell s3 "LFP" "" 30 2 = (some AddError.duplicateKey, s3)) :=
  ⟨rfl, rfl⟩

end BatterySim
